import Mathlib

/-!
Shallow embedding of the iSponsorBlockTV fork's segment processing
(src/api_helper.py), task cache (src/cache/sinbad_cache.py), lounge event
handling (src/lounge.py, src/video.py) and skip scheduling
(src/device_manager.py), with theorems settling the frozen claims about it.

Modelling conventions: Python floats are rationals (every value appearing in
the claims is exactly representable and no operation used here rounds);
Python strings that may be fed to float() are modelled as the string together
with the result float() would give on it; asyncio state is explicit state
passing, with the event loop's monotonic clock and the wall clock time.time()
kept as two separate rational readings.
-/

/-- One raw SponsorBlock record, one element of response["segments"] consumed
by ProcessSegments.process_segments (api_helper.py): a segment = [start, end]
pair, a provenance UUID and a locked flag (an absent flag is 0, matching
segment.get("locked", 0)).  Python's reserved-word clash: the end field is
called endTime. -/
structure RawRecord where
  start : ℚ
  endTime : ℚ
  UUID : String
  locked : Nat
deriving DecidableEq

instance : Inhabited RawRecord := ⟨⟨0, 0, "", 0⟩⟩

/-- One output segment_dict built by process_segments: start, end and the
accumulated list of provenance UUIDs. -/
structure ProcessedSegment where
  start : ℚ
  endTime : ℚ
  UUID : List String
deriving DecidableEq

/-- Python's builtin max on two rationals, written with an explicit comparison
so that kernel evaluation can reduce it. -/
def pyMax (a b : ℚ) : ℚ := if a ≤ b then b else a

/-- Python's builtin min on two rationals, written with an explicit comparison
so that kernel evaluation can reduce it. -/
def pyMin (a b : ℚ) : ℚ := if a ≤ b then a else b

/-- Rational subtraction routed through mkRat so the kernel can evaluate it on
literals; the theorem fsub_eq_sub below shows it is ordinary subtraction. -/
def fsub (a b : ℚ) : ℚ := mkRat (a.num * b.den - b.num * a.den) (a.den * b.den)

/-- Rational addition routed through mkRat so the kernel can evaluate it on
literals; the theorem fadd_eq_add below shows it is ordinary addition. -/
def fadd (a b : ℚ) : ℚ := mkRat (a.num * b.den + b.num * a.den) (a.den * b.den)

/-- Stable insertion of a record in front of the first element whose key is
not smaller.  Folding this from the right reproduces the stable ascending
behaviour of Python's list.sort(key=...). -/
def insertByKey (key : RawRecord → ℚ) (x : RawRecord) :
    List RawRecord → List RawRecord
  | [] => [x]
  | y :: ys => if key y < key x then y :: insertByKey key x ys else x :: y :: ys

/-- Python response_segments.sort(key=...): stable ascending sort by key. -/
def sortByKey (key : RawRecord → ℚ) (l : List RawRecord) : List RawRecord :=
  l.foldr (insertByKey key) []

/-- Body of the first double loop of process_segments at indices (i, j) with
i < j: if record j's start is ≤ record i's end, record i's end is raised to
the larger of the two ends (in-place update of slot i). -/
def extendEndAt (l : List RawRecord) (i j : Nat) : List RawRecord :=
  let ri := l.getD i default
  let rj := l.getD j default
  if rj.start ≤ ri.endTime then
    l.set i { ri with endTime := pyMax ri.endTime rj.endTime }
  else l

/-- First double loop of process_segments (api_helper.py lines 107-116):
for i in range(n): for j in range(i+1, n): extend ends.  The length is
constant throughout since only in-place slot updates occur. -/
def mergeEndsPass (l : List RawRecord) : List RawRecord :=
  (List.range l.length).foldl
    (fun acc i =>
      ((List.range l.length).drop (i + 1)).foldl
        (fun acc2 j => extendEndAt acc2 i j) acc)
    l

/-- Body of the second double loop at indices (i, j) with j < i: if record
j's end is ≥ record i's start, record i's start is lowered to the smaller of
the two starts. -/
def extendStartAt (l : List RawRecord) (i j : Nat) : List RawRecord :=
  let ri := l.getD i default
  let rj := l.getD j default
  if rj.endTime ≥ ri.start then
    l.set i { ri with start := pyMin ri.start rj.start }
  else l

/-- Second double loop of process_segments (api_helper.py lines 122-131):
for i in range(n-1, -1, -1): for j in range(i-1, -1, -1): extend starts. -/
def mergeStartsPass (l : List RawRecord) : List RawRecord :=
  (List.range l.length).reverse.foldl
    (fun acc i =>
      (List.range i).reverse.foldl
        (fun acc2 j => extendStartAt acc2 i j) acc)
    l

/-- Final loop body of process_segments for one segment_dict (api_helper.py
lines 135-152): when the new segment starts less than 1 second after the end
of the last output segment, the last output segment is extended in place and
its UUID list grows; then, independently, the new segment_dict is appended
whenever its own length exceeds minimum_skip_length.  The source code has no
continue after the proximity merge, so an absorbed segment_dict is appended
as well. -/
def appendSegment (minimum_skip_length : ℚ) (segments : List ProcessedSegment)
    (sd : ProcessedSegment) : List ProcessedSegment :=
  let merged :=
    match segments.getLast? with
    | some lastSeg =>
      if fsub sd.start lastSeg.endTime < 1 then
        segments.dropLast ++
          [{ lastSeg with endTime := sd.endTime, UUID := lastSeg.UUID ++ sd.UUID }]
      else segments
    | none => segments
  if fsub sd.endTime sd.start > minimum_skip_length then merged ++ [sd] else merged

/-- ProcessSegments.process_segments (api_helper.py lines 92-159) applied to
response["segments"], returning (segments, ignore_ttl).  The KeyError and
Exception handlers of the source are unreachable here because every RawRecord
carries all fields the loop reads. -/
def process_segments (response_segments : List RawRecord)
    (minimum_skip_length : ℚ) : List ProcessedSegment × Bool :=
  if response_segments.isEmpty then ([], true)
  else
    let l1 := sortByKey (fun r => r.endTime) response_segments
    let l2 := mergeEndsPass l1
    let l3 := sortByKey (fun r => r.start) l2
    let l4 := mergeStartsPass l3
    l4.foldl
      (fun acc r =>
        (appendSegment minimum_skip_length acc.1 ⟨r.start, r.endTime, [r.UUID]⟩,
         acc.2 && (r.locked == 1)))
      ([], true)

/-- Projection of an output list to its (start, end) pairs, used to compare
merge results independently of provenance bookkeeping. -/
def startEndPairs (l : List ProcessedSegment) : List (ℚ × ℚ) :=
  l.map (fun s => (s.start, s.endTime))

/-- Re-feeding processed output to the merge as raw records (claim C9): each
output segment becomes a record with the same start and end. -/
def asRawRecords (l : List ProcessedSegment) : List RawRecord :=
  l.map (fun s => ⟨s.start, s.endTime, "u", 1⟩)

/-- State of the LRU mapping of sinbad_cache.py (lines 42-63): the bindings
in insertion order (Python dicts preserve it) and the capacity bound.  Task
identity is a Nat: callers that receive equal ids share one in-flight task.
Dict keys are unique, so removing a binding by filtering equals dict.pop. -/
structure LRUState where
  entries : List (String × Nat)
  maxsize : Nat
deriving DecidableEq

/-- LRU.__getitem__ (sinbad_cache.py lines 53-55): on a hit the binding is
popped and re-appended as most recently used; a miss raises KeyError,
modelled as none. -/
def lru_getitem (c : LRUState) (k : String) : Option (Nat × LRUState) :=
  match c.entries.find? (fun p => p.1 == k) with
  | some p =>
    some (p.2,
      { c with entries := c.entries.filter (fun q => q.1 != k) ++ [(k, p.2)] })
  | none => none

/-- LRU.__setitem__ (sinbad_cache.py lines 57-60) for a key not yet present:
append the binding, then pop the oldest entry when over capacity. -/
def lru_setitem (c : LRUState) (k : String) (v : Nat) : LRUState :=
  let es := c.entries ++ [(k, v)]
  { c with entries := if c.maxsize < es.length then es.drop 1 else es }

/-- LRU.remove (sinbad_cache.py lines 62-63): cache.pop(key, None). -/
def lru_remove (c : LRUState) (k : String) : LRUState :=
  { c with entries := c.entries.filter (fun q => q.1 != k) }

/-- State of one lrutaskcache-wrapped coroutine function: its LRU of tasks,
the next fresh task id, and how many times the wrapped coroutine has actually
been invoked. -/
structure TaskCacheState where
  lru : LRUState
  nextId : Nat
  invocations : Nat
deriving DecidableEq

/-- The wrapped function produced by lrutaskcache (sinbad_cache.py lines
147-155): look the key up; on a KeyError invoke the coroutine, wrap it in a
TaskWrapper and store it.  make_key is a deterministic function of the call
arguments, so the key stands for the video id argument.  The body has no
await point, so under cooperative scheduling it runs atomically and
concurrent callers are modelled as consecutive calls. -/
def wrapped_call (s : TaskCacheState) (k : String) : Nat × TaskCacheState :=
  match lru_getitem s.lru k with
  | some (tid, lru2) => (tid, { s with lru := lru2 })
  | none =>
    (s.nextId,
     { lru := lru_setitem s.lru k s.nextId,
       nextId := s.nextId + 1,
       invocations := s.invocations + 1 })

/-- n successive wrapped calls with the same key, collecting the returned
task ids. -/
def wrapped_calls : TaskCacheState → String → Nat → List Nat × TaskCacheState
  | s, _, 0 => ([], s)
  | s, k, n + 1 =>
    ((wrapped_call s k).1 :: (wrapped_calls (wrapped_call s k).2 k n).1,
     (wrapped_calls (wrapped_call s k).2 k n).2)

/-- What _lru_evict (sinbad_cache.py lines 108-122) decides for a finished
task: remove the cache entry right now, or schedule its removal ttl seconds
later via loop.call_later. -/
inductive EvictAction where
  | removeNow
  | removeAfterTtl
deriving DecidableEq

/-- The decision _lru_evict takes when the done-callback of a get_segments
task runs.  A cancelled task's entry is removed at once.  Otherwise the
condition task.done() and result and len(result) > 1 and result[1] is
evaluated: the result is always the (segments, ignore_ttl) pair, a nonempty
tuple of length 2, so the condition reduces to the ignore_ttl flag (the
spec's skip_ttl_ok) and a true flag removes the entry at once; only a false
flag leads to the scheduled removal after the ttl. -/
def lru_evict_action (cancelled : Bool) (result : List ProcessedSegment × Bool) :
    EvictAction :=
  if cancelled then .removeNow
  else if result.2 then .removeNow
  else .removeAfterTtl

/-- Effect of the _lru_evict decision on the cache at the moment the
done-callback runs: removeNow removes the entry immediately, while
removeAfterTtl leaves it in place (its removal only fires ttl seconds
later). -/
def apply_evict (s : TaskCacheState) (k : String) : EvictAction → TaskCacheState
  | .removeNow => { s with lru := lru_remove s.lru k }
  | .removeAfterTtl => s

/-- Python values flowing out of an awaited task for this code: the
(segments, ignore_ttl) pair of get_segments, its components, or any other
tuple shape. -/
inductive PyObj where
  | segList (l : List ProcessedSegment)
  | boolv (b : Bool)
  | tup (elems : List PyObj)

/-- TaskWrapper.__await__ (sinbad_cache.py lines 33-39): the raw task result
is handed to the awaiter unchanged unless it is a tuple of length > 1, in
which case only res[0] is returned. -/
def taskwrapper_await (res : PyObj) : PyObj :=
  match res with
  | .tup (x :: _ :: _) => x
  | r => r

/-- Awaiting the lrutaskcache-wrapped ProcessSegments.get_segments: the
task's raw result is the (segments, ignore_ttl) pair, and awaiters (the
await in APIHelper.get_segments, and through it
DeviceManager.process_playstatus) receive it through TaskWrapper.__await__.
The raw pair itself is only seen by the done-callback _lru_evict, which
reads task.result() directly. -/
def awaited_get_segments (res : List ProcessedSegment × Bool) : PyObj :=
  taskwrapper_await (.tup [.segList res.1, .boolv res.2])

/-- A Python string payload value: its raw text plus the result float() would
give on it (none models a ValueError).  The lounge payload fields are
string-encoded and the embedding does not re-implement CPython's float
grammar, so each value carries its own parse outcome. -/
structure PyString where
  raw : String
  asFloat : Option ℚ
deriving DecidableEq

/-- An event payload: a Python dict from field names to values, as the
ordered association list of its items (keys unique). -/
abbrev Payload := List (String × PyString)

/-- Python dict access data.get(key) / data[key]: the binding of the key,
none when absent. -/
def lookupField (d : Payload) (k : String) : Option PyString :=
  (d.find? (fun p => p.1 == k)).map (fun p => p.2)

/-- float(data[key]) as used by CurrentVideo._update: a missing key raises
KeyError and an unparseable value raises ValueError, both modelled as
none. -/
def floatField (d : Payload) (k : String) : Option ℚ :=
  (lookupField d k).bind (fun v => v.asFloat)

/-- VideoState (video.py lines 14-19). -/
inductive VideoState where
  | startPlaying
  | stopped
  | playing
  | paused
  | buffering
deriving DecidableEq

/-- VideoState(data["state"]) (video.py line 42): constructing the enum from
its string value; a value outside the enumeration raises ValueError
(none). -/
def parseVideoState (v : PyString) : Option VideoState :=
  if v.raw == "-1" then some .startPlaying
  else if v.raw == "0" then some .stopped
  else if v.raw == "1" then some .playing
  else if v.raw == "2" then some .paused
  else if v.raw == "3" then some .buffering
  else none

/-- CurrentVideo (video.py): the snapshot fields that _update assigns.  The
derived dt_ fields are functions of these and are omitted; timer is the
time.time() reading stored on a successful update. -/
structure CurrentVideo where
  data : Payload
  video_id : Option PyString
  current_time : ℚ
  duration : ℚ
  loaded_time : ℚ
  state : VideoState
  seekable_start_time : ℚ
  seekable_end_time : ℚ
  timer : ℚ
deriving DecidableEq

/-- CurrentVideo._update (video.py lines 35-51) on an existing snapshot at
wall-clock time now.  Assignments happen in source order: data and video_id
are overwritten first, then each field coercion may raise, so on a failure
the object keeps every later field while data and video_id already hold the
new event's values.  The error value is that partially mutated object and
the exception propagates to the caller. -/
def cv_update (cv : CurrentVideo) (d : Payload) (now : ℚ) :
    Except CurrentVideo CurrentVideo :=
  let cv := { cv with data := d, video_id := lookupField d "videoId" }
  match floatField d "currentTime" with
  | none => .error cv
  | some current_time =>
  let cv := { cv with current_time := current_time }
  match floatField d "duration" with
  | none => .error cv
  | some duration =>
  let cv := { cv with duration := duration }
  match floatField d "loadedTime" with
  | none => .error cv
  | some loaded_time =>
  let cv := { cv with loaded_time := loaded_time }
  match (lookupField d "state").bind parseVideoState with
  | none => .error cv
  | some st =>
  let cv := { cv with state := st }
  match floatField d "seekableStartTime" with
  | none => .error cv
  | some sst =>
  let cv := { cv with seekable_start_time := sst }
  match floatField d "seekableEndTime" with
  | none => .error cv
  | some send =>
  .ok { cv with seekable_end_time := send, timer := now }

/-- CurrentVideo(data) (video.py lines 23-27): __init__ runs _update on a
fresh object; when that raises, the half-built object is discarded before
anyone stores it and the exception propagates. -/
def cv_new (d : Payload) (now : ℚ) : Except Unit CurrentVideo :=
  match cv_update ⟨[], none, 0, 0, 0, .stopped, 0, 0, 0⟩ d now with
  | .ok cv => .ok cv
  | .error _ => .error ()

/-- The LoungeAPI fields that _process_event (lounge.py lines 177-217) reads
or writes among those the claims mention.  current_video_data is refreshed by
a separately scheduled task and is assigned synchronously only on an empty
payload, so its value is kept opaque. -/
structure SessionState where
  paused : Bool
  current_video : Option CurrentVideo
  current_video_data : Option String
  last_event_time : ℚ
deriving DecidableEq

/-- KnownEvents.from_str (lounge.py lines 44-49) as far as the modelled state
is concerned: onStateChange and nowPlaying drive the snapshot logic, the
other eight known names dispatch to handlers that do not touch the modelled
fields, and every other string is the UNKNWON member. -/
inductive KnownEvent where
  | unknwon
  | stateChange
  | nowPlaying
  | otherKnown
deriving DecidableEq

/-- String to KnownEvent translation of KnownEvents.from_str. -/
def known_event_from_str (s : String) : KnownEvent :=
  if s == "onStateChange" then .stateChange
  else if s == "nowPlaying" then .nowPlaying
  else if s == "onAdStateChange" || s == "autoplayUpNext" || s == "volumeChanged"
      || s == "adPlaying" || s == "loungeStatus" || s == "onSubtitlesTrackChanged"
      || s == "loungeScreenDisconnected" || s == "onAutoplayModeChanged" then
    .otherKnown
  else .unknwon

/-- LoungeAPI._process_event (lounge.py lines 177-217) on the modelled state,
entered at wall-clock time wallNow (line 180 stores time.time() into
last_event_time).  Only the onStateChange/nowPlaying branch touches the other
modelled fields: a payload whose only key is listId returns before anything
else changes; otherwise paused is set from the state code, an empty payload
clears the snapshot and metadata, and a nonempty one updates or constructs
the snapshot.  Handler exceptions are caught (lines 212-215), but an
exception raised while updating or constructing the snapshot (lines 198-206)
is not and propagates out of _process_event: the error case carries the
session state as the exception leaves it. -/
def process_event (st : SessionState) (wallNow : ℚ) (event_type : String)
    (args : List Payload) : Except SessionState SessionState :=
  let st := { st with last_event_time := wallNow }
  match known_event_from_str event_type with
  | .unknwon => .ok st
  | .otherKnown => .ok st
  | _ =>
    let data := args.headD []
    if data.length == 1 && (lookupField data "listId").isSome then .ok st
    else
      let stateStr := ((lookupField data "state").map (fun v => v.raw)).getD ""
      let st := { st with paused := stateStr == "2" }
      if data.isEmpty then
        .ok { st with current_video := none, current_video_data := none }
      else
        match st.current_video with
        | some cv =>
          match cv_update cv data wallNow with
          | .ok cv2 => .ok { st with current_video := some cv2 }
          | .error cv2 => .error { st with current_video := some cv2 }
        | none =>
          match cv_new data wallNow with
          | .ok cv2 => .ok { st with current_video := some cv2 }
          | .error _ => .error st

/-- Watchdog state (lounge.py): the stored last_event_time.  The monotonic
event-loop clock and the wall clock are unrelated: at one real instant the
wall clock time.time() reads monotonic + skew, where on a real system the
skew is on the order of the Unix epoch (about 1.7e9 seconds). -/
structure WatchdogState where
  last_event_time : ℚ
deriving DecidableEq

/-- _watchdog initialisation (lounge.py lines 111-112): last_event_time is
seeded from the event loop's monotonic clock. -/
def watchdog_start (mono : ℚ) : WatchdogState := ⟨mono⟩

/-- One iteration of the watchdog poll (lounge.py lines 116-127): read the
monotonic clock and cancel the subscription when more than 60 seconds appear
to have passed since last_event_time. -/
def watchdog_poll_cancels (st : WatchdogState) (mono : ℚ) : Bool :=
  decide (fsub mono st.last_event_time > 60)

/-- _process_event line 180: self.last_event_time = time.time(), a WALL
clock reading, taken while the watchdog compares against the monotonic
clock; mono is the monotonic instant of the event and mono + skew the wall
reading at that instant. -/
def event_resets_watchdog (st : WatchdogState) (mono skew : ℚ) : WatchdogState :=
  { st with last_event_time := fadd mono skew }

/-- The scanning loop of DeviceManager.time_to_segment (device_manager.py
lines 215-227): the first segment that either contains the position under
the 2-second look-back rule (start_next_segment is then the position itself)
or starts strictly after the position (start_next_segment is then the
segment's start); none when the loop falls through. -/
def find_next_segment (position : ℚ) :
    List ProcessedSegment → Option (ℚ × ProcessedSegment)
  | [] => none
  | seg :: rest =>
    if position < 2 ∧ seg.start ≤ position ∧ position < seg.endTime then
      some (position, seg)
    else if seg.start > position then
      some (seg.start, seg)
    else
      find_next_segment position rest

/-- DeviceManager.time_to_segment (device_manager.py lines 212-237) followed
by skip (lines 240-245): when the loop found a segment AND the Python
truthiness test if start_next_segment: passes (a float is truthy exactly
when nonzero), time_to_next = start_next_segment - position - elapsed -
offset is computed (elapsed models time.time() - time_start) and skip is
awaited, which sleeps for time_to_next and then seeks to the segment's end
after marking its UUIDs viewed.  The result is none when no seek is
scheduled, otherwise (time_to_next, seek target, uuids). -/
def time_to_segment (segments : List ProcessedSegment)
    (position elapsed offset : ℚ) : Option (ℚ × ℚ × List String) :=
  match find_next_segment position segments with
  | some sn =>
    if sn.1 ≠ 0 then
      some (fsub (fsub (fsub sn.1 position) elapsed) offset, sn.2.endTime, sn.2.UUID)
    else none
  | none => none

/-- asyncio.sleep inside skip: a zero or negative delay yields immediately,
so the effective wait before the seek fires is the delay clamped at zero. -/
def sleep_wait (t : ℚ) : ℚ := pyMax t 0

/-- Concrete snapshot for the C5 scenario: a playing video with id "a". -/
def cv0 : CurrentVideo :=
  ⟨[], some ⟨"a", none⟩, 10, 100, 20, VideoState.playing, 0, 100, 5⟩

/-- Concrete session state holding cv0 and cached metadata. -/
def st0 : SessionState := ⟨false, some cv0, some "meta", 0⟩

/-- Concrete onStateChange payload whose currentTime value "xx" makes
float() raise: videoId is "b", currentTime is unparseable. -/
def d0 : Payload := [("videoId", ⟨"b", none⟩), ("currentTime", ⟨"xx", none⟩)]

/-- Claim C1: the claim states that for records [{start:10,end:20},
{start:15,end:25}] with minimum_skip_length 0 the merge returns exactly one
segment [{start:10,end:25}], overlapping records never being emitted twice.
The code instead also appends the absorbed duplicate record (the proximity
branch lacks a continue), yielding two output segments covering the same
range; this theorem evaluates the embedded code at the claim's own input. -/
theorem c1_process_segments_emits_absorbed_duplicate :
    process_segments [⟨10, 20, "u1", 1⟩, ⟨15, 25, "u2", 1⟩] 0 =
      ([⟨10, 25, ["u1", "u2"]⟩, ⟨10, 25, ["u2"]⟩], true) := by decide

/-- Claim C2: the claim states that for records [{start:0,end:5},
{start:5.5,end:8}] with minimum_skip_length 0 the proximity merge (gap 0.5 <
1.0) returns exactly [{start:0,end:8}] with the absorbed segment not
appearing separately.  The code extends the previous output segment to end 8
and concatenates the UUIDs, but then appends the absorbed segment_dict as
well; this theorem evaluates the embedded code at the claim's own input. -/
theorem c2_process_segments_keeps_absorbed_proximity_segment :
    process_segments [⟨0, 5, "u1", 1⟩, ⟨mkRat 11 2, 8, "u2", 1⟩] 0 =
      ([⟨0, 8, ["u1", "u2"]⟩, ⟨mkRat 11 2, 8, ["u2"]⟩], true) := by decide

/-- Claim C9: the claim states the merge is idempotent (its output is a fixed
point).  Because an absorbed segment is also emitted, the records
[{start:0,end:5},{start:5.5,end:8}] produce [{0,8},{5.5,8}], and re-running
the merge on that output produces [{0,8},{0,8}] — a different segment list, so
the output is not a fixed point of the algorithm. -/
theorem c9_process_segments_not_idempotent :
    startEndPairs (process_segments [⟨0, 5, "u1", 1⟩, ⟨mkRat 11 2, 8, "u2", 1⟩] 0).1 =
      [(0, 8), (mkRat 11 2, 8)] ∧
    startEndPairs
        (process_segments
          (asRawRecords (process_segments [⟨0, 5, "u1", 1⟩, ⟨mkRat 11 2, 8, "u2", 1⟩] 0).1)
          0).1 =
      [(0, 8), (0, 8)] ∧
    ([(0, 8), (mkRat 11 2, 8)] : List (ℚ × ℚ)) ≠ [(0, 8), (0, 8)] := by decide

/-- fsub is ordinary rational subtraction, so the embedding's arithmetic is
the source's. -/
theorem fsub_eq_sub (a b : ℚ) : fsub a b = a - b := by
  have ha : ((a.den : ℚ)) ≠ 0 := by exact_mod_cast a.den_ne_zero
  have hb : ((b.den : ℚ)) ≠ 0 := by exact_mod_cast b.den_ne_zero
  rw [fsub, Rat.mkRat_eq_div]
  push_cast
  conv_rhs => rw [← Rat.num_div_den a, ← Rat.num_div_den b]
  rw [div_sub_div _ _ ha hb]
  ring_nf

/-- fadd is ordinary rational addition, so the embedding's arithmetic is the
source's. -/
theorem fadd_eq_add (a b : ℚ) : fadd a b = a + b := by
  have ha : ((a.den : ℚ)) ≠ 0 := by exact_mod_cast a.den_ne_zero
  have hb : ((b.den : ℚ)) ≠ 0 := by exact_mod_cast b.den_ne_zero
  rw [fadd, Rat.mkRat_eq_div]
  push_cast
  conv_rhs => rw [← Rat.num_div_den a, ← Rat.num_div_den b]
  rw [div_add_div _ _ ha hb]
  ring_nf

/-- find? returns the head of the filtered list. -/
theorem find_eq_filter_head {α : Type} (p : α → Bool) (l : List α) :
    l.find? p = (l.filter p).head? := by
  induction l with
  | nil => rfl
  | cons a l ih =>
    cases h : p a
    · rw [List.find?_cons_of_neg _ (by simp [h]), List.filter_cons_of_neg (by simp [h]), ih]
    · rw [List.find?_cons_of_pos _ h, List.filter_cons_of_pos h]
      rfl

/-- Claim C10: awaiting the task-cache-wrapped get_segments yields only the
segment list, never the (segments, skip_ttl_ok) pair: TaskWrapper.__await__
hands res[0] to the awaiter for any tuple result of length > 1, so the
ignore_ttl flag is invisible to every awaiting caller such as
DeviceManager.process_playstatus, while the eviction callback reads the raw
pair from task.result(). -/
theorem c10_taskwrapper_strips_ignore_ttl :
    (∀ res : List ProcessedSegment × Bool,
        awaited_get_segments res = PyObj.segList res.1) ∧
    (∀ (x y : PyObj) (rest : List PyObj),
        taskwrapper_await (PyObj.tup (x :: y :: rest)) = x) :=
  ⟨fun _ => rfl, fun _ _ _ => rfl⟩

/-- Claim C3: the claim states that a cached get_segments result computed
with skip_ttl_ok (ignore_ttl) true never expires by time and keeps serving
later calls until LRU pressure evicts it.  The code does the opposite:
_lru_evict removes the entry the moment the task completes with a true flag,
so a later call re-invokes the fetch.  Here the cache starts empty with the
decorator's maxsize 10, one call for key "vid" runs the fetch (invocations
1), the task completes with a locked (flag true) result, the done-callback
decides removeNow and empties the cache, and the next call for "vid" runs
the fetch again (invocations 2). -/
theorem c3_locked_result_evicted_immediately :
    lru_evict_action false ([⟨10, 25, ["u1", "u2"]⟩], true) = EvictAction.removeNow ∧
    (apply_evict (wrapped_call ⟨⟨[], 10⟩, 0, 0⟩ "vid").2 "vid"
        (lru_evict_action false ([⟨10, 25, ["u1", "u2"]⟩], true))).lru.entries = [] ∧
    (wrapped_call (apply_evict (wrapped_call ⟨⟨[], 10⟩, 0, 0⟩ "vid").2 "vid"
        (lru_evict_action false ([⟨10, 25, ["u1", "u2"]⟩], true))) "vid").2.invocations
      = 2 := by
  refine ⟨rfl, rfl, rfl⟩

/-- Claim C4: the claim states the watchdog cancels the subscription when no
event arrives within the 60-second staleness threshold of the 10-second
poll.  _process_event stores time.time() (wall clock) into last_event_time
while the watchdog subtracts it from the event loop's monotonic clock, so
once any event has been processed the computed staleness is monotonic minus
wall, hugely negative, and the watchdog can never fire again.  Concretely:
the watchdog starts at monotonic 0, an event is processed at monotonic 1000
with wall skew 1700000000, no further event arrives, and the poll at
monotonic 10000 (9000 > 60 seconds of silence) still does not cancel. -/
theorem c4_watchdog_never_cancels_after_event :
    fsub 10000 1000 > (60 : ℚ) ∧
    watchdog_poll_cancels
        (event_resets_watchdog (watchdog_start 0) 1000 1700000000) 10000 = false := by
  refine ⟨by decide, by decide⟩

/-- Claim C6: dispatching an onStateChange or nowPlaying event whose payload
has exactly the one key listId returns from _process_event before the paused
flag or the snapshot is touched: current_video, current_video_data and
paused keep their previous values for every prior session state (only
last_event_time is refreshed, which the claim does not constrain). -/
theorem c6_partial_event_leaves_snapshot_unchanged :
    ∀ (st : SessionState) (wallNow : ℚ) (v : PyString),
      process_event st wallNow "onStateChange" [[("listId", v)]] =
        Except.ok { st with last_event_time := wallNow } ∧
      process_event st wallNow "nowPlaying" [[("listId", v)]] =
        Except.ok { st with last_event_time := wallNow } :=
  fun _ _ _ => ⟨rfl, rfl⟩

/-- Claim C7 counterexample: at position 0 with segment {start:0,end:3} the
selection rule matches the segment through the 2-second look-back rule, yet
no seek is scheduled: start_next_segment is the float 0.0, the Python
truthiness guard if start_next_segment: fails, and time_to_segment returns
without skipping, refuting the claim that a seek is scheduled whenever a
matching segment exists. -/
theorem c7_counterexample_position_zero :
    find_next_segment 0 [⟨0, 3, ["u"]⟩] = some (0, ⟨0, 3, ["u"]⟩) ∧
    time_to_segment [⟨0, 3, ["u"]⟩] 0 0 0 = none := by
  refine ⟨by decide, by decide⟩

/-- Claim C7 amended: for every playback update the scheduler selects the
first segment satisfying (position < 2 and start ≤ position < end) or start >
position, and whenever such a segment exists AND the associated scheduling
start value (the position in the look-back case, the segment's start
otherwise) is nonzero — the source guards it with Python truthiness — a seek
to that segment's end is scheduled after start value - position - elapsed -
offset seconds, firing immediately when that delay is zero or negative. -/
theorem c7_skip_scheduled_when_start_truthy (segments : List ProcessedSegment)
    (position elapsed offset s : ℚ) (seg : ProcessedSegment)
    (hfind : find_next_segment position segments = some (s, seg))
    (hs : s ≠ 0) :
    time_to_segment segments position elapsed offset =
      some (fsub (fsub (fsub s position) elapsed) offset, seg.endTime, seg.UUID) := by
  simp [time_to_segment, hfind, hs]

/-- Claim C7 witness (the claim's scenario D): position 1.5 with segment
{start:0,end:3}: the look-back rule selects the segment, the start value 1.5
is nonzero, and a seek to 3 is scheduled with delay 1.5 - 1.5 - 0 - 0 = 0,
firing immediately. -/
theorem c7_skip_scheduled_witness :
    time_to_segment [⟨0, 3, ["u"]⟩] (mkRat 3 2) 0 0 =
      some (fsub (fsub (fsub (mkRat 3 2) (mkRat 3 2)) 0) 0, 3, ["u"]) :=
  c7_skip_scheduled_when_start_truthy [⟨0, 3, ["u"]⟩] (mkRat 3 2) 0 0 (mkRat 3 2)
    ⟨0, 3, ["u"]⟩ (by decide) (by decide)

/-- A payload carrying a currentTime binding cannot be the one-key listId
partial payload, so the partial-event check of _process_event is false for
it. -/
theorem partial_check_false_of_currentTime (d : Payload) (v : PyString)
    (hct : lookupField d "currentTime" = some v) :
    (d.length == 1 && (lookupField d "listId").isSome) = false := by
  match d with
  | [] => simp [lookupField] at hct
  | p :: q :: rest => rfl
  | [p] =>
    simp [lookupField] at hct
    have hls : List.find? (fun q => q.1 == "listId") [p] = none := by
      rw [List.find?_cons_of_neg _ (by rw [hct.1]; decide)]
      rfl
    simp [lookupField, hls]

/-- Claim C5 counterexample: the claim states that an event whose field
coercion fails leaves the existing snapshot and all its fields exactly
unchanged and lets no exception escape the event-processing code.  With the
prior snapshot cv0 (video id "a") and the payload d0 (videoId "b",
unparseable currentTime), _process_event raises out of the snapshot update
(only handler dispatch is wrapped in try) and the surviving snapshot has
already been mutated: its data and video_id now hold the new event's values,
so the snapshot differs from cv0. -/
theorem c5_counterexample_snapshot_mutated :
    process_event st0 42 "onStateChange" [d0] =
      Except.error
        { st0 with
          last_event_time := 42,
          current_video :=
            some { cv0 with data := d0, video_id := some ⟨"b", none⟩ } } ∧
    some { cv0 with data := d0, video_id := some ⟨"b", none⟩ } ≠
      st0.current_video := by
  refine ⟨rfl, by decide⟩

/-- Claim C5 amended: for every prior session state with an existing snapshot
and every onStateChange payload whose currentTime value fails float(), the
update raises after the assignments that precede the failing coercion:
_process_event propagates the exception (its try only wraps handler
dispatch), the snapshot's data and video_id fields take the new event's
values, every later snapshot field keeps its previous value, and the paused
flag has already been set from the event's state code. -/
theorem c5_failed_coercion_mutates_prefix_and_raises
    (st : SessionState) (cv : CurrentVideo) (d : Payload) (wallNow : ℚ)
    (v : PyString)
    (hcv : st.current_video = some cv)
    (hct : lookupField d "currentTime" = some v)
    (hbad : v.asFloat = none) :
    process_event st wallNow "onStateChange" [d] =
      Except.error
        { st with
          last_event_time := wallNow,
          paused := ((lookupField d "state").map (fun w => w.raw)).getD "" == "2",
          current_video :=
            some { cv with data := d, video_id := lookupField d "videoId" } } := by
  have hpartial := partial_check_false_of_currentTime d v hct
  have hne : d.isEmpty = false := by
    cases d with
    | nil => simp [lookupField] at hct
    | cons p rest => rfl
  have hfloat : floatField d "currentTime" = none := by
    rw [floatField, hct]
    exact hbad
  simp only [process_event]
  rw [show known_event_from_str "onStateChange" = KnownEvent.stateChange from rfl]
  simp only [List.headD_cons, hpartial, Bool.false_eq_true, if_false, hne, hcv,
    cv_update, hfloat]

/-- Claim C5 amended witness: the concrete scenario st0 / d0 instantiates the
amended claim: the update raises, data and video_id take d0's values and the
remaining snapshot fields stay those of cv0. -/
theorem c5_failed_coercion_witness :
    process_event st0 42 "onStateChange" [d0] =
      Except.error
        { st0 with
          last_event_time := 42,
          paused := ((lookupField d0 "state").map (fun w => w.raw)).getD "" == "2",
          current_video :=
            some { cv0 with data := d0, video_id := lookupField d0 "videoId" } } :=
  c5_failed_coercion_mutates_prefix_and_raises st0 cv0 d0 42 ⟨"xx", none⟩
    (by decide) (by decide) (by decide)

/-- After an LRU touch of key k, k keeps exactly one binding, at the back. -/
theorem filter_touch (k : String) (tid : Nat) (es : List (String × Nat)) :
    (es.filter (fun q => q.1 != k) ++ [(k, tid)]).filter (fun p => p.1 == k) =
      [(k, tid)] := by
  rw [List.filter_append]
  have h1 : (es.filter (fun q => q.1 != k)).filter (fun p => p.1 == k) = [] := by
    apply List.filter_eq_nil_iff.mpr
    intro a ha
    have hmem := List.of_mem_filter ha
    cases hv : (a.1 == k)
    · simp [hv]
    · simp [bne, hv] at hmem
  rw [h1]
  simp

/-- Setting a fresh key in an LRU with maxsize ≥ 1 leaves exactly one binding
for it, also when the insertion evicts the oldest entry. -/
theorem filter_after_set (k : String) (tid : Nat) (c : LRUState)
    (hk : c.entries.filter (fun p => p.1 == k) = [])
    (hmax : 1 ≤ c.maxsize) :
    (lru_setitem c k tid).entries.filter (fun p => p.1 == k) = [(k, tid)] := by
  have hall : ∀ a ∈ c.entries, ¬((a.1 == k) = true) := by
    intro a ha
    exact List.filter_eq_nil_iff.mp hk a ha
  unfold lru_setitem
  by_cases hlen : c.maxsize < (c.entries ++ [(k, tid)]).length
  · simp only [if_pos hlen]
    match hc : c.entries with
    | [] =>
      rw [hc] at hlen
      simp at hlen
      exact absurd hmax (by omega)
    | a :: rest =>
      rw [List.cons_append, List.drop_one, List.tail_cons]
      rw [List.filter_append]
      have hrest : rest.filter (fun p => p.1 == k) = [] := by
        apply List.filter_eq_nil_iff.mpr
        intro x hx
        exact hall x (by rw [hc]; exact List.mem_cons_of_mem _ hx)
      rw [hrest]
      simp
  · simp only [if_neg hlen]
    rw [List.filter_append, hk]
    simp

/-- A wrapped call whose key is cached returns the stored task id without
invoking the coroutine: counters are unchanged and the binding is
re-appended as most recently used. -/
theorem wrapped_call_hit (t : TaskCacheState) (k : String) (tid : Nat)
    (h : t.lru.entries.filter (fun p => p.1 == k) = [(k, tid)]) :
    wrapped_call t k =
      (tid, { t with lru := { t.lru with
        entries := t.lru.entries.filter (fun q => q.1 != k) ++ [(k, tid)] } }) := by
  have hf : t.lru.entries.find? (fun p => p.1 == k) = some (k, tid) := by
    rw [find_eq_filter_head, h]
    rfl
  simp [wrapped_call, lru_getitem, hf]

/-- Repeated wrapped calls with a cached key keep returning the stored task
id and never invoke the coroutine again. -/
theorem wrapped_calls_hit (k : String) (tid : Nat) :
    ∀ (n : Nat) (t : TaskCacheState),
      t.lru.entries.filter (fun p => p.1 == k) = [(k, tid)] →
      (wrapped_calls t k n).1 = List.replicate n tid ∧
      (wrapped_calls t k n).2.invocations = t.invocations
  | 0, t, _ => ⟨rfl, rfl⟩
  | n + 1, t, h => by
    have hc := wrapped_call_hit t k tid h
    have hinv : (wrapped_call t k).2.lru.entries.filter (fun p => p.1 == k) =
        [(k, tid)] := by
      rw [hc]
      exact filter_touch k tid t.lru.entries
    obtain ⟨ih1, ih2⟩ := wrapped_calls_hit k tid n (wrapped_call t k).2 hinv
    refine ⟨?_, ?_⟩
    · show (wrapped_call t k).1 :: (wrapped_calls (wrapped_call t k).2 k n).1 = _
      rw [ih1, show (wrapped_call t k).1 = tid from by rw [hc], List.replicate_succ]
    · show (wrapped_calls (wrapped_call t k).2 k n).2.invocations = t.invocations
      rw [ih2, hc]

/-- Claim C8: single flight per key for the lrutaskcache-wrapped
get_segments.  From any cache state that holds no entry for key k and has
maxsize ≥ 1 (the decorator uses 10), n+1 consecutive calls with k — the
wrapped function body has no await, so cooperative concurrency makes any N
concurrent callers consecutive — all return the one task id created by the
first call, and the wrapped coroutine is invoked exactly once while the
entry exists. -/
theorem c8_get_segments_single_flight (s : TaskCacheState) (k : String) (n : Nat)
    (hk : s.lru.entries.filter (fun p => p.1 == k) = [])
    (hmax : 1 ≤ s.lru.maxsize) :
    (wrapped_calls s k (n + 1)).1 = List.replicate (n + 1) s.nextId ∧
    (wrapped_calls s k (n + 1)).2.invocations = s.invocations + 1 := by
  have hf : s.lru.entries.find? (fun p => p.1 == k) = none := by
    rw [find_eq_filter_head, hk]
    rfl
  have hstep : wrapped_call s k =
      (s.nextId, ⟨lru_setitem s.lru k s.nextId, s.nextId + 1, s.invocations + 1⟩) := by
    simp [wrapped_call, lru_getitem, hf]
  have hinv : (wrapped_call s k).2.lru.entries.filter (fun p => p.1 == k) =
      [(k, s.nextId)] := by
    rw [hstep]
    exact filter_after_set k s.nextId s.lru hk hmax
  obtain ⟨ih1, ih2⟩ := wrapped_calls_hit k s.nextId n (wrapped_call s k).2 hinv
  constructor
  · show (wrapped_call s k).1 :: (wrapped_calls (wrapped_call s k).2 k n).1 = _
    rw [ih1, show (wrapped_call s k).1 = s.nextId from by rw [hstep],
      List.replicate_succ]
  · show (wrapped_calls (wrapped_call s k).2 k n).2.invocations = s.invocations + 1
    rw [ih2, hstep]

/-- Claim C8 witness: a cache already holding another key "w" with maxsize
10, next task id 7, three prior invocations: three calls for "v" return task
7 three times while invocations rise by exactly one. -/
theorem c8_single_flight_witness :
    (wrapped_calls ⟨⟨[("w", 5)], 10⟩, 7, 3⟩ "v" 3).1 = List.replicate 3 7 ∧
    (wrapped_calls ⟨⟨[("w", 5)], 10⟩, 7, 3⟩ "v" 3).2.invocations = 3 + 1 :=
  c8_get_segments_single_flight ⟨⟨[("w", 5)], 10⟩, 7, 3⟩ "v" 2 (by decide) (by decide)
